import Mathlib

/-!
Verification development for the digital-display plotter pipeline
(webapp/plotter: product.py, water_level.py, temperature.py, wind.py,
air_pressure.py, met.py).

Shallow embedding conventions:
* timestamps are whole minutes (ZMod-free integers); the station-local
  index of the pandas frames is modelled as the `t` field of each row,
  and frames are lists of rows ordered by `t`;
* Python floats are embedded as rationals; a pandas NaN cell (produced
  by replacing empty strings and by outer joins) is `Option.none`;
* Python exceptions are the `PyErr` codes of an `Except` result;
* the constant N_HOURS_NULL_DATA = 4 hours appears as 240 minutes;
* HOURS_PAD_BEFORE = 12 h and HOURS_PAD_AFTER = 3 h give the padded
  window [now - 720, now + 180] in minutes.
-/

namespace DDP

/-- Python exception classes that the embedded code paths can raise. -/
inductive PyErr
  | typeError
  | keyError
  | indexError
  | zeroDivisionError
  | ioErr
  | attributeError
deriving DecidableEq

/-- Number of hours of continuous bad data (product.py N_HOURS_NULL_DATA),
expressed in minutes: 4 hours = 240 minutes. -/
def N_MINUTES_NULL_DATA : ℤ := 240

/-! ### Pressure dial (air_pressure.py) -/

/-- PRESSURE_XTICKLABELS from air_pressure.py line 61: the dial tick
labels, in the order they appear on the plot. -/
def PRESSURE_XTICKLABELS : List ℚ := [1040, 1020, 1000, 980, 960, 940, 1060]

/-- PRESSURE_THETA_RANGE from air_pressure.py line 55: the 270 degree
dial sweep (the bottom 90 degrees are unused). -/
def PRESSURE_THETA_RANGE : ℚ := 270

/-- Python max over a nonempty list (0 on the empty list, which the code
never passes). -/
def pyMax : List ℚ → ℚ
  | [] => 0
  | x :: xs => xs.foldl max x

/-- Python min over a nonempty list (0 on the empty list, which the code
never passes). -/
def pyMin : List ℚ → ℚ
  | [] => 0
  | x :: xs => xs.foldl min x

/-- air_pressure._normalize_pressure: pmin is the MAX tick label (1060)
and pmax the MIN tick label (940), so the map is reversed, onto the 270
degree sweep. -/
def normalize_pressure (pressure : ℚ) : ℚ :=
  let pmin := pyMax PRESSURE_XTICKLABELS
  let pmax := pyMin PRESSURE_XTICKLABELS
  (pressure - pmin) / (pmax - pmin) * PRESSURE_THETA_RANGE

/-- The two while loops of air_pressure._convert_to_angle (add or
subtract 360 until the angle lies in [0, 360)): for any finite input
they compute exactly the representative of the angle modulo 360 in
[0, 360). -/
def wrap360 (x : ℚ) : ℚ := x - 360 * ⌊x / 360⌋

/-- air_pressure._convert_to_angle, up to the final radian conversion
(the code returns angle * pi / 180; all claims are stated in degrees,
so the degree-valued wrapped angle is embedded). -/
def convert_to_angle_deg (pressure : ℚ) : ℚ :=
  wrap360 (normalize_pressure pressure - 45)

/-! ### Cardinal directions (wind.py) -/

/-- CARDINAL_NAMES from wind.py lines 63 and 64: note the SEVENTEEN
entries, with N duplicated at index 16 to absorb the wrap-around. -/
def CARDINAL_NAMES : List String :=
  ["N", "NNE", "NE", "ENE", "E", "ESE", "SE", "SSE", "S",
   "SSW", "SW", "WSW", "W", "WNW", "NW", "NNW", "N"]

/-- wind._get_cardinal_direction, for one element of the input array:
index floor((degN + 11.25) / 22.5) into CARDINAL_NAMES (no modulo in
the code; the duplicated final N covers indexes up to 16). Out-of-range
indexes, on which the code would raise, return the empty string. -/
def get_cardinal_direction (degN : ℚ) : String :=
  CARDINAL_NAMES.getD (⌊(degN + 11.25) / 22.5⌋).toNat ""

/-- The 16-point compass convention as worded by the spec: index =
floor((degrees + 11.25) / 22.5) mod 16 into the sixteen distinct names.
This definition follows the words of the spec and is compared against
get_cardinal_direction, which is taken from the source. -/
def cardinal_point_16 (degN : ℚ) : String :=
  (CARDINAL_NAMES.take 16).getD (((⌊(degN + 11.25) / 22.5⌋) % 16)).toNat ""

/-! ### Animation assembly (product.py _make_gif) -/

/-- The artifact written by product._make_gif: the first frame saved
with the trailing frames appended, the per-frame duration in
milliseconds and the loop count; a static artifact (do_animation false)
stores only the last frame with no duration or loop parameters. -/
structure GifArtifact where
  firstFrame : ℕ
  restFrames : List ℕ
  durationMs : Option ℚ
  loopCount : Option ℤ
deriving DecidableEq

/-- product._make_gif on an already-collected frame list. With
do_animation false the code saves frames[-1], which raises IndexError
on an empty list; otherwise it first computes
gif_total_duration_sec / len(frames) * 1000, which raises
ZeroDivisionError on an empty list, before saving frames[0]. -/
def make_gif (frames : List ℕ) (do_animation : Bool)
    (gif_total_duration_sec : ℚ) (gif_loop : ℤ) : Except PyErr GifArtifact :=
  if do_animation = false then
    match frames.getLast? with
    | none => .error .indexError
    | some f => .ok ⟨f, [], none, none⟩
  else
    match frames with
    | [] => .error .zeroDivisionError
    | f :: rest =>
        .ok ⟨f, rest, some (gif_total_duration_sec / (frames.length : ℚ) * 1000),
             some gif_loop⟩

/-! ### Observation frames and the product accessors (product.py) -/

/-- One row of a single-observable merged frame (water level and air
pressure frames): the time index and the observed column. -/
structure ObsRow where
  t : ℤ
  observed : Option ℚ
deriving DecidableEq

/-- The rows of a column-projected frame whose cell is non-null, in
frame order; its last element underlies the latest-value accessors
(values[not_na][-1] and index[not_na][-1]). -/
def lastValid {α β : Type} (col : α → Option β) (df : List α) : Option α :=
  (df.filter (fun r => (col r).isSome)).getLast?

/-- product.latest_obs: None when no frame is loaded, otherwise the last
non-null observed value; indexing values[not_na][-1] raises IndexError
when every observed cell is null. (The column-existence check of the
code is discharged by the row type.) -/
def product_latest_obs (df : Option (List ObsRow)) : Except PyErr (Option ℚ) :=
  match df with
  | none => .ok none
  | some l =>
    match lastValid (fun r => r.observed) l with
    | none => .error .indexError
    | some r => .ok r.observed

/-- product.latest_obs_time: None when no frame is loaded, otherwise the
index of the last non-null observed value; raises IndexError when every
observed cell is null. -/
def product_latest_obs_time (df : Option (List ObsRow)) : Except PyErr (Option ℤ) :=
  match df with
  | none => .ok none
  | some l =>
    match lastValid (fun r => r.observed) l with
    | none => .error .indexError
    | some r => .ok (some r.t)

/-- product.has_all_nan: False when no frame is loaded; otherwise slice
the observed column over [latest_obs_time - 4 h, latest_obs_time] (the
pandas loc slice on the sorted time index, both ends inclusive) and
test whether every cell in the slice is null. The anchor comes from
latest_obs_time, so the computation raises exactly when that accessor
does. -/
def product_has_all_nan (df : Option (List ObsRow)) : Except PyErr Bool :=
  match df with
  | none => .ok false
  | some l =>
    match lastValid (fun r => r.observed) l with
    | none => .error .indexError
    | some anchor =>
      .ok ((l.filter (fun r =>
              decide (anchor.t - N_MINUTES_NULL_DATA ≤ r.t) && decide (r.t ≤ anchor.t))).all
            (fun r => r.observed.isNone))

/-! ### Wind frames (wind.py) -/

/-- One row of the wind merged frame after wind._load_data: speed,
direction, derived cardinal name, gust speed and the derived polar
coordinates. -/
structure WindRow where
  t : ℤ
  wind_speed : Option ℚ
  wind_direction : Option ℚ
  wind_cardinal : Option String
  gust_speed : Option ℚ
  wind_radius : Option ℚ
  wind_theta : Option ℚ
deriving DecidableEq

/-- wind.latest_obs_time: None when no frame is loaded, otherwise the
index of the last non-null wind_speed cell. -/
def wind_latest_obs_time (df : Option (List WindRow)) : Except PyErr (Option ℤ) :=
  match df with
  | none => .ok none
  | some l =>
    match lastValid (fun r => r.wind_speed) l with
    | none => .error .indexError
    | some r => .ok (some r.t)

/-- wind.latest_wind_speed: None when no frame is loaded, otherwise the
last non-null wind_speed value. -/
def wind_latest_wind_speed (df : Option (List WindRow)) : Except PyErr (Option ℚ) :=
  match df with
  | none => .ok none
  | some l =>
    match lastValid (fun r => r.wind_speed) l with
    | none => .error .indexError
    | some r => .ok r.wind_speed

/-- wind.latest_gust_speed: None when no frame is loaded, otherwise the
last non-null gust_speed value. -/
def wind_latest_gust_speed (df : Option (List WindRow)) : Except PyErr (Option ℚ) :=
  match df with
  | none => .ok none
  | some l =>
    match lastValid (fun r => r.gust_speed) l with
    | none => .error .indexError
    | some r => .ok r.gust_speed

/-- wind.latest_wind_cardinal: None when no frame is loaded, otherwise
the last non-null wind_cardinal value. -/
def wind_latest_wind_cardinal (df : Option (List WindRow)) : Except PyErr (Option String) :=
  match df with
  | none => .ok none
  | some l =>
    match lastValid (fun r => r.wind_cardinal) l with
    | none => .error .indexError
    | some r => .ok r.wind_cardinal

/-- wind.latest_gust_cardinal is an alias of wind.latest_wind_cardinal. -/
def wind_latest_gust_cardinal (df : Option (List WindRow)) : Except PyErr (Option String) :=
  wind_latest_wind_cardinal df

/-! ### Met frames (met.py) -/

/-- One row of the met merged frame built by met._load_data: the outer
join of the wind, temperature and air-pressure frames on the time
index. -/
structure MetRow where
  t : ℤ
  wind_speed : Option ℚ
  wind_direction : Option ℚ
  wind_cardinal : Option String
  gust_speed : Option ℚ
  wind_radius : Option ℚ
  wind_theta : Option ℚ
  air : Option ℚ
  water : Option ℚ
  air_height : Option ℚ
  water_height : Option ℚ
  pressure : Option ℚ
  pressure_theta : Option ℚ
deriving DecidableEq

/-- met.latest_obs_time: None when no frame is loaded, otherwise the
index of the last non-null wind_speed cell of the merged met frame. -/
def met_latest_obs_time (df : Option (List MetRow)) : Except PyErr (Option ℤ) :=
  match df with
  | none => .ok none
  | some l =>
    match lastValid (fun r => r.wind_speed) l with
    | none => .error .indexError
    | some r => .ok (some r.t)

/-- met.latest_air_temp: None when no frame is loaded, otherwise the
last non-null air cell. -/
def met_latest_air_temp (df : Option (List MetRow)) : Except PyErr (Option ℚ) :=
  match df with
  | none => .ok none
  | some l =>
    match lastValid (fun r => r.air) l with
    | none => .error .indexError
    | some r => .ok r.air

/-- met.latest_water_temp: None when no frame is loaded, otherwise the
last non-null water cell. -/
def met_latest_water_temp (df : Option (List MetRow)) : Except PyErr (Option ℚ) :=
  match df with
  | none => .ok none
  | some l =>
    match lastValid (fun r => r.water) l with
    | none => .error .indexError
    | some r => .ok r.water

/-- met.latest_air_pressure: None when no frame is loaded, otherwise the
last non-null pressure cell. -/
def met_latest_air_pressure (df : Option (List MetRow)) : Except PyErr (Option ℚ) :=
  match df with
  | none => .ok none
  | some l =>
    match lastValid (fun r => r.pressure) l with
    | none => .error .indexError
    | some r => .ok r.pressure

/-- met.latest_wind_speed: None when no frame is loaded, otherwise the
last non-null wind_speed cell. -/
def met_latest_wind_speed (df : Option (List MetRow)) : Except PyErr (Option ℚ) :=
  match df with
  | none => .ok none
  | some l =>
    match lastValid (fun r => r.wind_speed) l with
    | none => .error .indexError
    | some r => .ok r.wind_speed

/-- met.latest_wind_cardinal: None when no frame is loaded, otherwise
the last non-null wind_cardinal cell. -/
def met_latest_wind_cardinal (df : Option (List MetRow)) : Except PyErr (Option String) :=
  match df with
  | none => .ok none
  | some l =>
    match lastValid (fun r => r.wind_cardinal) l with
    | none => .error .indexError
    | some r => .ok r.wind_cardinal

/-- met.latest_gust_speed: None when no frame is loaded, otherwise the
last non-null gust_speed cell. -/
def met_latest_gust_speed (df : Option (List MetRow)) : Except PyErr (Option ℚ) :=
  match df with
  | none => .ok none
  | some l =>
    match lastValid (fun r => r.gust_speed) l with
    | none => .error .indexError
    | some r => .ok r.gust_speed

/-- met.latest_gust_cardinal is an alias of met.latest_wind_cardinal. -/
def met_latest_gust_cardinal (df : Option (List MetRow)) : Except PyErr (Option String) :=
  met_latest_wind_cardinal df

/-- met.has_all_nan: identical in shape to product.has_all_nan but
reading ONLY the wind_speed column of the merged met frame, anchored at
the last non-null wind_speed index. -/
def met_has_all_nan (df : Option (List MetRow)) : Except PyErr Bool :=
  match df with
  | none => .ok false
  | some l =>
    match lastValid (fun r => r.wind_speed) l with
    | none => .error .indexError
    | some anchor =>
      .ok ((l.filter (fun r =>
              decide (anchor.t - N_MINUTES_NULL_DATA ≤ r.t) && decide (r.t ≤ anchor.t))).all
            (fun r => r.wind_speed.isNone))

/-- Projection of a met row onto the wind_speed column, giving a plain
single-observable row. -/
def metWindSpeedProj (r : MetRow) : ObsRow := ⟨r.t, r.wind_speed⟩

/-- Modelled from the spec: the staleness of one met constituent inside
the merged frame. The code has no per-constituent staleness on the met
frame (temperature even lacks a has_all_nan that its frame could
answer), so this follows the words of the spec, reading the most recent
N_HOURS_NULL_DATA window as the 4 hours ending at the final timestamp
of the merged series: the constituent column is stale when every cell
in that window is null. -/
def spec_constituent_stale (col : MetRow → Option ℚ) (l : List MetRow) : Bool :=
  match l.getLast? with
  | none => false
  | some lastRow =>
      (l.filter (fun r =>
          decide (lastRow.t - N_MINUTES_NULL_DATA ≤ r.t) && decide (r.t ≤ lastRow.t))).all
        (fun r => (col r).isNone)

/-- Modelled from the spec: the per-product staleness as the spec words
it, true iff every observed sample in the trailing (most recent)
N_HOURS_NULL_DATA window is null — the window ending at the final
timestamp of the series itself. This definition follows the words of
the spec and is compared against product_has_all_nan, which is taken
from the source and anchors its window at the last NON-null
observation instead. -/
def spec_trailing_stale (l : List ObsRow) : Bool :=
  match l.getLast? with
  | none => false
  | some lastRow =>
      (l.filter (fun r =>
          decide (lastRow.t - N_MINUTES_NULL_DATA ≤ r.t) && decide (r.t ≤ lastRow.t))).all
        (fun r => r.observed.isNone)

/-! ### Water level merge and load (water_level.py) -/

/-- One row of the water-level merged frame built by
water_level._load_data, after the column renames: 1-min predicted,
6-min observed, hi-lo predicted value and the hi-lo event tag (H or
L). -/
structure WlRow where
  t : ℤ
  predicted : Option ℚ
  observed : Option ℚ
  predicted_hilo : Option ℚ
  event : Option String
deriving DecidableEq

/-- A pulled single-value frame (time index and the v column, with
empty strings already replaced by null). -/
abbrev PulledFrame := List (ℤ × Option ℚ)

/-- A pulled hi-lo frame: time index, the v column and the type column
(H or L). -/
abbrev PulledHilo := List (ℤ × Option ℚ × Option String)

/-- Cell of an outer join: a missing row and a null cell both merge to
NaN. -/
def lookupVal (l : PulledFrame) (t : ℤ) : Option ℚ :=
  match l.find? (fun p => decide (p.1 = t)) with
  | none => none
  | some p => p.2

/-- Hi-lo value cell of the outer join. -/
def lookupHiloV (l : PulledHilo) (t : ℤ) : Option ℚ :=
  match l.find? (fun p => decide (p.1 = t)) with
  | none => none
  | some p => p.2.1

/-- Hi-lo event cell of the outer join. -/
def lookupHiloE (l : PulledHilo) (t : ℤ) : Option String :=
  match l.find? (fun p => decide (p.1 = t)) with
  | none => none
  | some p => p.2.2

/-- Insert a timestamp into an ascending list, keeping it ascending. -/
def insertAsc (a : ℤ) : List ℤ → List ℤ
  | [] => [a]
  | b :: bs => if a ≤ b then a :: b :: bs else b :: insertAsc a bs

/-- Ascending sort of the merged time index (the outer join of pandas
sorts the union of the indexes). -/
def sortAsc : List ℤ → List ℤ
  | [] => []
  | a :: as => insertAsc a (sortAsc as)

/-- The minutes kept after now by water_level._load_data:
list(range(0, 59, 6)), that is the 6-minute-aligned minutes of an
hour. -/
def MINUTES_6STEP : List ℤ := [0, 6, 12, 18, 24, 30, 36, 42, 48, 54]

/-- The keep mask of water_level._load_data lines 132 to 139: a merged
row survives when it has a valid observation or a valid hi-lo value
(keep_before), or lies strictly after now at a 6-minute-aligned minute
(keep_after). Both masks are applied to every row; their disjunction
selects the rows. -/
def wlKeep (now : ℤ) (r : WlRow) : Bool :=
  (r.observed.isSome || r.predicted_hilo.isSome) ||
    (decide (now < r.t) && decide ((r.t % 60) ∈ MINUTES_6STEP))

/-- The merged water-level series of water_level._load_data: outer-join
the 1-min prediction, 6-min observation and hi-lo frames on the sorted
deduplicated union of their time indexes, filter with the keep mask,
then convert columns to float. Line 144 of the source assigns
df.predicted (not df.predicted_hilo) to the predicted_hilo column, so
the stored hi-lo heights are overwritten with the 1-min predicted
values. -/
def wlMergedSeries (obs pred : PulledFrame) (hilo : PulledHilo) (now : ℤ) : List WlRow :=
  let times := sortAsc ((pred.map Prod.fst ++ obs.map Prod.fst ++ hilo.map Prod.fst).dedup)
  let merged := times.map (fun t =>
    WlRow.mk t (lookupVal pred t) (lookupVal obs t) (lookupHiloV hilo t) (lookupHiloE hilo t))
  let kept := merged.filter (wlKeep now)
  kept.map (fun r => { r with predicted_hilo := r.predicted })

/-- The mutable state of a water_level product that load touches: the
reference time and the stored merged series. -/
structure WlState where
  now? : Option ℤ
  latest_data_df : Option (List WlRow)
deriving DecidableEq

/-- The three gateway responses consumed by one water-level load, as
already-trimmed frames (the claim fixes the gateway responses). -/
structure WlPulls where
  obs : PulledFrame
  pred : PulledFrame
  hilo : PulledHilo
deriving DecidableEq

/-- water_level._load_data: raise IOError when now is unset, otherwise
recompute the merged series from the pulled frames and overwrite the
stored frame. The computation reads nothing from the previous stored
series. -/
def wl_load_data (pulls : WlPulls) (st : WlState) : Except PyErr WlState :=
  match st.now? with
  | none => .error .ioErr
  | some now =>
      .ok { st with latest_data_df := some (wlMergedSeries pulls.obs pulls.pred pulls.hilo now) }

/-! ### Todays tides (water_level.get_today_tides) -/

/-- Python slice semantics l[lo:hi] for integer bounds, including
negative indexes counted from the end (pandas iloc follows them). -/
def pySlice {α : Type} (lo hi : ℤ) (l : List α) : List α :=
  let n : ℤ := l.length
  let norm : ℤ → ℕ := fun i => (if i < 0 then max (n + i) 0 else min i n).toNat
  (l.take (norm hi)).drop (norm lo)

/-- Index of the first minimum of a list (numpy argmin keeps the first
occurrence), via an accumulator over the tail. -/
def firstArgminAux : List ℕ → ℕ → ℕ → ℕ → ℕ
  | [], bestIdx, _, _ => bestIdx
  | x :: xs, bestIdx, bestVal, idx =>
      if x < bestVal then firstArgminAux xs idx x (idx + 1)
      else firstArgminAux xs bestIdx bestVal (idx + 1)

/-- Index of the first minimum of a list; 0 on the empty list, on which
numpy argmin raises. -/
def firstArgmin : List ℕ → ℕ
  | [] => 0
  | x :: xs => firstArgminAux xs 0 x 1

/-- water_level.get_today_tides on the pulled hi-lo window: keep rows
whose event is non-null, compute the absolute time differences to now,
find the nearest extremum, and because the differences are absolute
values the branch guard time_diff[min_index] > 0 holds except when now
coincides exactly with an extremum: then n_before = 0 and n_after = 3,
otherwise n_before = 2 and n_after = 1; finally take the iloc slice
[min_index - n_before, min_index + n_after). Rows are (t, height,
event). -/
def get_today_tides (hiloRaw : PulledHilo) (now : ℤ) : List (ℤ × Option ℚ × String) :=
  let rows := hiloRaw.filterMap (fun p =>
    match p.2.2 with
    | none => none
    | some e => some (p.1, p.2.1, e))
  let diffs := rows.map (fun r => (r.1 - now).natAbs)
  let mi := firstArgmin diffs
  let nBefore : ℤ := if 0 < diffs.getD mi 0 then 0 else 2
  let nAfter : ℤ := if 0 < diffs.getD mi 0 then 3 else 1
  pySlice ((mi : ℤ) - nBefore) ((mi : ℤ) + nAfter) rows

/-! ### Remote data gateway (product._pull_data and product._load_latest) -/

/-- The parsed JSON payload of one gateway response: the possible
top-level keys are error, data and predictions, plus any number of
other keys (such as metadata). Row lists carry the time key and the v
value with empty strings already read as null. -/
structure ApiContent where
  errorMsg : Option String
  dataRows : Option PulledFrame
  predictionRows : Option PulledFrame
  otherKeyCount : ℕ
deriving DecidableEq

/-- Number of top-level keys of the payload (len(content)). -/
def contentSize (c : ApiContent) : ℕ :=
  (if c.errorMsg.isSome then 1 else 0) + (if c.dataRows.isSome then 1 else 0) +
    (if c.predictionRows.isSome then 1 else 0) + c.otherKeyCount

/-- One HTTP response of the tide API. -/
structure HttpResponse where
  statusCode : ℤ
  content : ApiContent
deriving DecidableEq

/-- product._pull_data after the request: return None (the unavailable
sentinel, logged not raised) on a non-200 status, on an error payload,
on an empty payload, and on a payload with neither a data nor a
predictions key; otherwise return the payload. -/
def pull_data (resp : HttpResponse) : Option ApiContent :=
  if resp.statusCode ≠ 200 then none
  else if resp.content.errorMsg.isSome then none
  else if contentSize resp.content = 0 then none
  else if ¬ resp.content.dataRows.isSome ∧ ¬ resp.content.predictionRows.isSome then none
  else some resp.content

/-- product._transform_api_data: None (logged) on an empty row list,
otherwise the time-indexed frame. (The t key is guaranteed by the row
type.) -/
def transform_api_data (rows : PulledFrame) : Option PulledFrame :=
  if rows.length = 0 then none else some rows

/-- The body of product._load_latest after the pull, for a given data
key choice and trim window. The code indexes content[data_key] without
checking the pull for None: an unavailable pull therefore raises
TypeError here (subscripting None), a payload lacking the requested key
raises KeyError, and a None from the transform raises TypeError at the
trim. A successful path trims the frame to the requested window
bounds. -/
def load_latest (resp : HttpResponse) (isPredictions : Bool) (beginT endT : ℤ) :
    Except PyErr PulledFrame :=
  match pull_data resp with
  | none => .error .typeError
  | some c =>
    match (if isPredictions then c.predictionRows else c.dataRows) with
    | none => .error .keyError
    | some rows =>
      match transform_api_data rows with
      | none => .error .typeError
      | some df => .ok (df.filter (fun p => decide (beginT ≤ p.1) && decide (p.1 ≤ endT)))

/-! ### Concrete inputs used by counterexamples and witnesses -/

/-- A pulled 6-minute observation frame around now = 0: the tick at
minute -6 is present but null (the station reported an empty string). -/
def wlObsPullEx : PulledFrame := [(-12, some 1), (-6, none), (0, some 2)]

/-- A pulled 1-minute prediction frame around now = 0, thinned here to
6-minute ticks plus the padded window end at minute 180. -/
def wlPredPullEx : PulledFrame :=
  [(-12, some (3/2)), (-6, some (3/2)), (0, some (3/2)), (6, some (3/2)),
   (12, some (3/2)), (180, some (3/2))]

/-- A pulled hi-lo frame with no extrema inside the window. -/
def wlHiloPullEx : PulledHilo := []

/-- The three fixed gateway responses of one water-level load. -/
def wlPullsEx : WlPulls := ⟨wlObsPullEx, wlPredPullEx, wlHiloPullEx⟩

/-- A water-level product state whose reference time is set to now = 0
and on which load has not yet run. -/
def wlStateEx : WlState := ⟨some 0, none⟩

/-- A pulled hi-lo window with extrema at minutes -300, 60, 400 and 700
relative to now = 0: now lies strictly between the extrema at -300 and
60, and the nearest extremum (+60) is still upcoming. -/
def tidesEx : PulledHilo :=
  [(-300, some 3, some "H"), (60, some 1, some "L"),
   (400, some 4, some "H"), (700, some 2, some "L")]

/-- A loaded single-observable frame whose last valid observation is 6
hours old: one non-null sample at minute -360, then null samples only,
hourly through minute 0 — every observed sample of the trailing 4-hour
window [-240, 0] is null. -/
def staleObsFrameEx : List ObsRow :=
  [⟨-360, some 1⟩, ⟨-300, none⟩, ⟨-240, none⟩, ⟨-180, none⟩,
   ⟨-120, none⟩, ⟨-60, none⟩, ⟨0, none⟩]

/-- A loaded frame whose only observation is null. -/
def allNullObsFrameEx : List ObsRow := [⟨0, none⟩]

/-- A met row carrying only wind data (every temperature and pressure
cell null). -/
def metWindOnlyRow (t : ℤ) : MetRow :=
  ⟨t, some 5, some 90, some "E", some 7, some 1, some 1,
   none, none, none, none, none, none⟩

/-- A merged met frame whose wind column is healthy at every tick while
the temperature and pressure columns are null throughout: the
temperature and pressure constituents are stale, the wind constituent
is not. -/
def metStaleEx : List MetRow :=
  [metWindOnlyRow (-240), metWindOnlyRow (-120), metWindOnlyRow 0]

/-- A healthy payload: a data key with rows, plus one metadata key. -/
def goodContentEx : ApiContent := ⟨none, some wlObsPullEx, none, 1⟩

/-- An error payload. -/
def errorContentEx : ApiContent := ⟨some "No data was found", none, none, 0⟩

/-- An empty payload (no top-level keys). -/
def emptyContentEx : ApiContent := ⟨none, none, none, 0⟩

/-- A payload with two top-level keys but neither data nor
predictions. -/
def noSeriesContentEx : ApiContent := ⟨none, none, none, 2⟩

/-! ### Helper lemmas -/

theorem filter_map_comm {α β : Type} (f : α → β) (p : β → Bool) (l : List α) :
    (l.map f).filter p = (l.filter (fun a => p (f a))).map f := by
  induction l with
  | nil => rfl
  | cons a l ih =>
      by_cases h : p (f a) = true
      · simp [List.filter_cons, h, ih]
      · simp only [Bool.not_eq_true] at h
        simp [List.filter_cons, h, ih]

theorem all_map_comm {α β : Type} (f : α → β) (p : β → Bool) (l : List α) :
    (l.map f).all p = l.all (fun a => p (f a)) := by
  induction l with
  | nil => rfl
  | cons a l ih => simp [List.all_cons, ih]

theorem getLast?_map_comm {α β : Type} (f : α → β) (l : List α) :
    (l.map f).getLast? = (l.getLast?).map f := by
  induction l with
  | nil => rfl
  | cons a l ih =>
      cases l with
      | nil => rfl
      | cons b bs => simpa using ih

theorem mem_insertAsc {x a : ℤ} {l : List ℤ} : x ∈ insertAsc a l ↔ x = a ∨ x ∈ l := by
  induction l with
  | nil => simp [insertAsc]
  | cons b bs ih =>
      by_cases h : a ≤ b
      · simp [insertAsc, h]
      · simp [insertAsc, h, ih]
        tauto

theorem mem_sortAsc {x : ℤ} {l : List ℤ} : x ∈ sortAsc l ↔ x ∈ l := by
  induction l with
  | nil => simp [sortAsc]
  | cons a as ih => simp [sortAsc, mem_insertAsc, ih]

theorem wrap360_nonneg_lt (x : ℚ) : 0 ≤ wrap360 x ∧ wrap360 x < 360 := by
  have hfr : wrap360 x = 360 * Int.fract (x / 360) := by
    unfold wrap360 Int.fract
    field_simp
  constructor
  · rw [hfr]
    have := Int.fract_nonneg (x / 360)
    linarith
  · rw [hfr]
    have := Int.fract_lt_one (x / 360)
    linarith

theorem wrap360_eq_self {x : ℚ} (h0 : 0 ≤ x) (h1 : x < 360) : wrap360 x = x := by
  unfold wrap360
  have : ⌊x / 360⌋ = 0 := by
    rw [Int.floor_eq_zero_iff]
    constructor
    · positivity
    · rw [div_lt_one (by norm_num : (0:ℚ) < 360)]
      simpa using h1
  rw [this]
  ring

theorem normalize_pressure_eq (p : ℚ) : normalize_pressure p = (1060 - p) * (9/4) := by
  have hmax : pyMax PRESSURE_XTICKLABELS = 1060 := by decide
  have hmin : pyMin PRESSURE_XTICKLABELS = 940 := by decide
  unfold normalize_pressure
  rw [hmax, hmin]
  unfold PRESSURE_THETA_RANGE
  ring

theorem cardinal_table_mod16 (k : ℤ) (hk0 : 0 ≤ k) (hk1 : k < 17) :
    CARDINAL_NAMES.getD k.toNat "" = (CARDINAL_NAMES.take 16).getD (k % 16).toNat "" := by
  interval_cases k <;> rfl

theorem wrap360_eval (x : ℚ) (k : ℤ) (h0 : 360 * (k : ℚ) ≤ x)
    (h1 : x < 360 * ((k : ℚ) + 1)) : wrap360 x = x - 360 * k := by
  unfold wrap360
  have hf : ⌊x / 360⌋ = k := by
    rw [Int.floor_eq_iff]
    constructor
    · rw [le_div_iff (by norm_num : (0:ℚ) < 360)]
      linarith
    · rw [div_lt_iff (by norm_num : (0:ℚ) < 360)]
      push_cast
      linarith
  rw [hf]

theorem floor_sector (d : ℚ) (k : ℤ) (h0 : (k : ℚ) * 22.5 ≤ d + 11.25)
    (h1 : d + 11.25 < ((k : ℚ) + 1) * 22.5) : ⌊(d + 11.25) / 22.5⌋ = k := by
  rw [Int.floor_eq_iff]
  constructor
  · rw [le_div_iff (by norm_num : (0:ℚ) < 22.5)]
    linarith
  · rw [div_lt_iff (by norm_num : (0:ℚ) < 22.5)]
    push_cast
    linarith

/-! ### Claim theorems -/

/-- C1 (code evaluation): on a loaded series whose trailing 4-hour
window holds only null observed samples (the last valid observation is
6 hours old), the spec-worded trailing staleness is true, yet
has_all_nan returns False: the code anchors its window at the last
NON-null observation, which then always lies inside the window, so the
predicate can never return True on a series with any valid
observation; and on an all-null loaded series, where every window
sample is null, the code raises IndexError instead of returning
True. -/
theorem has_all_nan_misses_trailing_nulls :
    spec_trailing_stale staleObsFrameEx = true ∧
    product_has_all_nan (some staleObsFrameEx) = .ok false ∧
    spec_trailing_stale allNullObsFrameEx = true ∧
    product_has_all_nan (some allNullObsFrameEx) = .error .indexError := by
  refine ⟨by decide, rfl, by decide, rfl⟩

/-- C2 (code evaluation): with extrema at minutes -300, 60, 400 and 700
and now = 0 strictly between two extrema, with the nearest extremum
(+60) still upcoming, get_today_tides returns the three upcoming
extrema and zero prior ones — not 1 prior and 2 upcoming, because the
branch guard compares an absolute time difference with 0. -/
theorem get_today_tides_zero_prior :
    get_today_tides tidesEx 0 =
      [(60, some 1, "L"), (400, some 4, "H"), (700, some 2, "L")] ∧
    ((get_today_tides tidesEx 0).filter (fun r => decide (r.1 < 0))).length = 0 := by
  constructor <;> rfl

/-- C3 (counterexample): with the concrete pulls around now = 0 the
claim is false: the 6-minute tick at minute -6 (whose observation was
null) has no row at all in the stored water-level series, and the final
row is not an all-null synthetic row. -/
theorem wl_merged_not_one_row_per_tick :
    ¬ ((∀ t : ℤ, -720 ≤ t → t ≤ 180 → t % 6 = 0 →
          ((wlMergedSeries wlObsPullEx wlPredPullEx wlHiloPullEx 0).filter
              (fun r => decide (r.t = t))).length = 1) ∧
        ∃ r, (wlMergedSeries wlObsPullEx wlPredPullEx wlHiloPullEx 0).getLast? = some r ∧
          r.observed = none ∧ r.predicted = none ∧ r.predicted_hilo = none ∧ r.event = none) := by
  intro h
  exact absurd (h.1 (-6) (by norm_num) (by norm_num) (by decide)) (by decide)

/-- C3 (amended): every row of the stored water-level series carries
the outer-join cells of its timestamp, with the predicted_hilo column
overwritten by the 1-minute predicted value, and satisfies the keep
mask (a non-null observation, or a non-null hi-lo value, or strictly
after now at a 6-minute-aligned minute); conversely every merged
timestamp satisfying the keep mask contributes a row. No synthetic
trailing row is appended. -/
theorem wl_merged_membership (obs pred : PulledFrame) (hilo : PulledHilo) (now : ℤ) :
    (∀ r ∈ wlMergedSeries obs pred hilo now,
        r.observed = lookupVal obs r.t ∧ r.predicted = lookupVal pred r.t ∧
        r.predicted_hilo = lookupVal pred r.t ∧ r.event = lookupHiloE hilo r.t ∧
        ((lookupVal obs r.t).isSome = true ∨ (lookupHiloV hilo r.t).isSome = true ∨
          (now < r.t ∧ r.t % 60 ∈ MINUTES_6STEP))) ∧
    (∀ t : ℤ, (t ∈ pred.map Prod.fst ∨ t ∈ obs.map Prod.fst ∨ t ∈ hilo.map Prod.fst) →
        ((lookupVal obs t).isSome = true ∨ (lookupHiloV hilo t).isSome = true ∨
          (now < t ∧ t % 60 ∈ MINUTES_6STEP)) →
        ∃ r ∈ wlMergedSeries obs pred hilo now, r.t = t) := by
  constructor
  · intro r hr
    unfold wlMergedSeries at hr
    simp only [List.mem_map, List.mem_filter] at hr
    obtain ⟨r0, ⟨hr0mem, hr0keep⟩, hr0eq⟩ := hr
    obtain ⟨t, htmem, ht⟩ := hr0mem
    subst ht
    subst hr0eq
    simp only [wlKeep, Bool.or_eq_true, Bool.and_eq_true, decide_eq_true_eq] at hr0keep
    refine ⟨rfl, rfl, rfl, rfl, ?_⟩
    tauto
  · intro t ht hkeep
    have htu : t ∈ sortAsc ((pred.map Prod.fst ++ obs.map Prod.fst ++ hilo.map Prod.fst).dedup) := by
      rw [mem_sortAsc, List.mem_dedup]
      simp only [List.mem_append]
      tauto
    refine ⟨⟨t, lookupVal pred t, lookupVal obs t, lookupVal pred t, lookupHiloE hilo t⟩, ?_, rfl⟩
    unfold wlMergedSeries
    simp only [List.mem_map, List.mem_filter]
    refine ⟨⟨t, lookupVal pred t, lookupVal obs t, lookupHiloV hilo t, lookupHiloE hilo t⟩,
      ⟨⟨t, htu, rfl⟩, ?_⟩, rfl⟩
    simp only [wlKeep, Bool.or_eq_true, Bool.and_eq_true, decide_eq_true_eq]
    tauto

/-- Witness for C3 (amended): at the concrete pulls the after-now tick
at minute 6 is present in the stored series. -/
theorem wl_merged_membership_witness :
    ∃ r ∈ wlMergedSeries wlObsPullEx wlPredPullEx wlHiloPullEx 0, r.t = 6 :=
  (wl_merged_membership wlObsPullEx wlPredPullEx wlHiloPullEx 0).2 6 (by decide) (by decide)

/-- C4 (code evaluation): a non-200 status, an error payload, an empty
payload and a payload with neither data nor predictions all make
_pull_data return the None sentinel; but _load_latest then subscripts
that None (content[data_key]), so a TypeError escapes to the caller of
the load path instead of a graceful no-update. -/
theorem pull_unavailable_then_load_raises :
    pull_data ⟨404, goodContentEx⟩ = none ∧
    pull_data ⟨200, errorContentEx⟩ = none ∧
    pull_data ⟨200, emptyContentEx⟩ = none ∧
    pull_data ⟨200, noSeriesContentEx⟩ = none ∧
    load_latest ⟨404, goodContentEx⟩ false (-720) 180 = .error .typeError := by
  refine ⟨rfl, rfl, rfl, rfl, rfl⟩

/-- C5 (counterexample): 348 degrees falls in the NNW sector (the
wrap-around boundary is 348.75), so the cardinal mapping returns NNW,
not N. -/
theorem cardinal_348_is_NNW :
    get_cardinal_direction 348 = "NNW" ∧ get_cardinal_direction 348 ≠ "N" := by
  have h : get_cardinal_direction 348 = "NNW" := by
    unfold get_cardinal_direction
    rw [floor_sector 348 15 (by norm_num) (by norm_num)]
    rfl
  exact ⟨h, by rw [h]; decide⟩

/-- C5 (amended): on [0, 360) the source mapping (a 17-entry table with
N duplicated at the end, no modulo) agrees with the 16-point convention
index = floor((degrees + 11.25) / 22.5) mod 16; degrees 0 and 11 map to
N and 12 to NNE as claimed, but the wrap-around boundary is 348.75:
348 maps to NNW while 349 maps to N. -/
theorem cardinal_16_point_convention :
    (∀ d : ℚ, 0 ≤ d → d < 360 → get_cardinal_direction d = cardinal_point_16 d) ∧
    get_cardinal_direction 0 = "N" ∧ get_cardinal_direction 11 = "N" ∧
    get_cardinal_direction 12 = "NNE" ∧ get_cardinal_direction 348 = "NNW" ∧
    get_cardinal_direction 349 = "N" := by
  have ev : ∀ d : ℚ, ∀ k : ℤ, (k : ℚ) * 22.5 ≤ d + 11.25 → d + 11.25 < ((k : ℚ) + 1) * 22.5 →
      get_cardinal_direction d = CARDINAL_NAMES.getD k.toNat "" := by
    intro d k hk0 hk1
    unfold get_cardinal_direction
    rw [floor_sector d k hk0 hk1]
  have hmain : ∀ d : ℚ, 0 ≤ d → d < 360 → get_cardinal_direction d = cardinal_point_16 d := by
    intro d h0 h1
    have hq0 : (0:ℚ) ≤ (d + 11.25) / 22.5 := by positivity
    have hq1 : (d + 11.25) / 22.5 < 17 := by
      rw [div_lt_iff (by norm_num : (0:ℚ) < 22.5)]
      linarith
    have hk0 : (0:ℤ) ≤ ⌊(d + 11.25) / 22.5⌋ := Int.le_floor.mpr (by exact_mod_cast hq0)
    have hk1 : ⌊(d + 11.25) / 22.5⌋ < 17 := Int.floor_lt.mpr (by exact_mod_cast hq1)
    exact cardinal_table_mod16 _ hk0 hk1
  refine ⟨hmain, ?_, ?_, ?_, ?_, ?_⟩
  · rw [ev 0 0 (by norm_num) (by norm_num)]
    rfl
  · rw [ev 11 0 (by norm_num) (by norm_num)]
    rfl
  · rw [ev 12 1 (by norm_num) (by norm_num)]
    rfl
  · rw [ev 348 15 (by norm_num) (by norm_num)]
    rfl
  · rw [ev 349 16 (by norm_num) (by norm_num)]
    rfl

/-- Witness for C5 (amended) at 180 degrees. -/
theorem cardinal_16_point_convention_witness :
    get_cardinal_direction 180 = cardinal_point_16 180 :=
  cardinal_16_point_convention.1 180 (by norm_num) (by norm_num)

/-- C6 (counterexample): pressure 1050 maps to 337.5 degrees, not to
about 315 (the 315 mark belongs to 1060, the top of the actual 940 to
1060 range), and the wrapped angle is not monotonic-decreasing across
the dial: 1040 maps to 0 while 1041 maps to 357.75. -/
theorem pressure_angle_counterexample :
    convert_to_angle_deg 1050 = 337.5 ∧ convert_to_angle_deg 1040 = 0 ∧
    convert_to_angle_deg 1041 = 357.75 ∧
    ¬ convert_to_angle_deg 1041 ≤ convert_to_angle_deg 1040 ∧
    convert_to_angle_deg 1050 ≠ 315 := by
  have ev : ∀ p x : ℚ, ∀ k : ℤ, (1060 - p) * (9/4) - 45 = x → 360 * (k : ℚ) ≤ x →
      x < 360 * ((k : ℚ) + 1) → convert_to_angle_deg p = x - 360 * k := by
    intro p x k hx h0 h1
    unfold convert_to_angle_deg
    rw [normalize_pressure_eq, hx, wrap360_eval x k h0 h1]
  have e1050 : convert_to_angle_deg 1050 = 337.5 := by
    rw [ev 1050 (-22.5) (-1) (by norm_num) (by norm_num) (by norm_num)]
    norm_num
  have e1040 : convert_to_angle_deg 1040 = 0 := by
    rw [ev 1040 0 0 (by norm_num) (by norm_num) (by norm_num)]
    norm_num
  have e1041 : convert_to_angle_deg 1041 = 357.75 := by
    rw [ev 1041 (-2.25) (-1) (by norm_num) (by norm_num) (by norm_num)]
    norm_num
  refine ⟨e1050, e1040, e1041, ?_, ?_⟩
  · rw [e1040, e1041]
    norm_num
  · rw [e1050]
    norm_num

/-- C6 (amended): the dial maps the range 940 to 1060 mb onto the 270
degree sweep; the wrapped angle always lies in [0, 360); pressure 1060
maps to 315 degrees and 940 to 225; and the mapping is strictly
decreasing on [940, 1040], the sub-range on which no wrap occurs. -/
theorem pressure_angle_amended :
    (∀ p q : ℚ, 940 ≤ p → p < q → q ≤ 1040 →
        convert_to_angle_deg q < convert_to_angle_deg p) ∧
    (∀ p : ℚ, 0 ≤ convert_to_angle_deg p ∧ convert_to_angle_deg p < 360) ∧
    convert_to_angle_deg 1060 = 315 ∧ convert_to_angle_deg 940 = 225 := by
  have hval : ∀ p : ℚ, 940 ≤ p → p ≤ 1040 →
      convert_to_angle_deg p = (1060 - p) * (9/4) - 45 := by
    intro p hp1 hp2
    unfold convert_to_angle_deg
    rw [normalize_pressure_eq]
    exact wrap360_eq_self (by linarith) (by linarith)
  have e1060 : convert_to_angle_deg 1060 = 315 := by
    unfold convert_to_angle_deg
    rw [normalize_pressure_eq,
      show (1060 - (1060:ℚ)) * (9/4) - 45 = -45 by norm_num,
      wrap360_eval (-45) (-1) (by norm_num) (by norm_num)]
    norm_num
  have e940 : convert_to_angle_deg 940 = 225 := by
    rw [hval 940 (by norm_num) (by norm_num)]
    norm_num
  refine ⟨?_, ?_, e1060, e940⟩
  · intro p q hp hpq hq
    rw [hval p hp (by linarith), hval q (by linarith) hq]
    linarith
  · intro p
    exact wrap360_nonneg_lt _

/-- Witness for C6 (amended): 1000 to 1020 is strictly decreasing and a
sample angle is in range. -/
theorem pressure_angle_amended_witness :
    convert_to_angle_deg 1020 < convert_to_angle_deg 1000 ∧
    0 ≤ convert_to_angle_deg 5000 ∧ convert_to_angle_deg 5000 < 360 :=
  ⟨pressure_angle_amended.1 1000 1020 (by norm_num) (by norm_num) (by norm_num),
   (pressure_angle_amended.2.1 5000).1, (pressure_angle_amended.2.1 5000).2⟩

/-- C7 (counterexample): on a merged met frame whose wind column is
healthy while the temperature and pressure columns are null throughout
the whole window, the temperature and pressure constituents are stale
(every cell of their columns in the trailing 4-hour window is null),
yet met.has_all_nan is False — so met staleness is not the staleness of
any constituent. -/
theorem met_stale_ignores_constituents :
    spec_constituent_stale (fun r => r.pressure) metStaleEx = true ∧
    spec_constituent_stale (fun r => r.air) metStaleEx = true ∧
    met_has_all_nan (some metStaleEx) = .ok false ∧
    ¬ (met_has_all_nan (some metStaleEx) = .ok true ↔
        (spec_constituent_stale (fun r => r.wind_speed) metStaleEx = true ∨
         spec_constituent_stale (fun r => r.air) metStaleEx = true ∨
         spec_constituent_stale (fun r => r.pressure) metStaleEx = true)) := by
  have h1 : spec_constituent_stale (fun r => r.pressure) metStaleEx = true := by decide
  have h2 : spec_constituent_stale (fun r => r.air) metStaleEx = true := by decide
  have h3 : met_has_all_nan (some metStaleEx) = .ok false := rfl
  refine ⟨h1, h2, h3, ?_⟩
  intro h
  have hcontra := h.mpr (Or.inr (Or.inr h1))
  rw [h3] at hcontra
  simp at hcontra

/-- C7 (amended): met.has_all_nan is exactly the single-column
staleness predicate applied to the wind_speed column of the merged met
frame — the temperature and pressure columns never influence it. -/
theorem met_stale_is_wind_speed_stale (df : Option (List MetRow)) :
    met_has_all_nan df = product_has_all_nan (df.map (List.map metWindSpeedProj)) := by
  cases df with
  | none => rfl
  | some l =>
      have hlast : lastValid (fun r => r.observed) (l.map metWindSpeedProj) =
          (lastValid (fun r => r.wind_speed) l).map metWindSpeedProj := by
        unfold lastValid
        rw [filter_map_comm, getLast?_map_comm]
        rfl
      cases hA : lastValid (fun r => r.wind_speed) l with
      | none =>
          rw [hA] at hlast
          simp only [met_has_all_nan, product_has_all_nan, Option.map_some', hA, hlast,
            Option.map_none']
      | some anchor =>
          rw [hA] at hlast
          simp only [met_has_all_nan, product_has_all_nan, Option.map_some', hA, hlast]
          rw [filter_map_comm, all_map_comm]
          rfl

/-- C8: loading the water-level data twice with the same reference time
and the same fixed gateway responses stores the identical merged
series — the recomputation reads nothing from the previously stored
frame. -/
theorem wl_load_idempotent (pulls : WlPulls) (st st' : WlState)
    (h : wl_load_data pulls st = .ok st') : wl_load_data pulls st' = .ok st' := by
  cases hn : st.now? with
  | none => rw [wl_load_data, hn] at h; cases h
  | some now =>
      rw [wl_load_data, hn] at h
      cases h
      rw [wl_load_data]

/-- Witness for C8 at the concrete pulls and now = 0. -/
theorem wl_load_idempotent_witness :
    wl_load_data wlPullsEx
        ⟨some 0, some (wlMergedSeries wlObsPullEx wlPredPullEx wlHiloPullEx 0)⟩ =
      .ok ⟨some 0, some (wlMergedSeries wlObsPullEx wlPredPullEx wlHiloPullEx 0)⟩ :=
  wl_load_idempotent wlPullsEx wlStateEx _ rfl

/-- C9 (counterexample): with an empty frame set _make_gif fails, but
with ZeroDivisionError (animation on: the per-frame duration divides by
len(frames) = 0) or IndexError (animation off: frames[-1]) — never with
IOError. -/
theorem make_gif_empty_not_io_error :
    make_gif [] true 3 1 = .error .zeroDivisionError ∧
    make_gif [] false 3 1 = .error .indexError ∧
    make_gif [] true 3 1 ≠ .error .ioErr ∧
    make_gif [] false 3 1 ≠ .error .ioErr := by
  refine ⟨rfl, rfl, ?_, ?_⟩
  · show Except.error PyErr.zeroDivisionError ≠ Except.error PyErr.ioErr
    simp
  · show Except.error PyErr.indexError ≠ Except.error PyErr.ioErr
    simp

/-- C9 (amended): for every configuration, _make_gif on an empty frame
set fails with ZeroDivisionError when animation is enabled and with
IndexError when it is disabled. -/
theorem make_gif_empty_frames_error (do_animation : Bool) (sec : ℚ) (loop : ℤ) :
    make_gif [] do_animation sec loop =
      .error (if do_animation then .zeroDivisionError else .indexError) := by
  cases do_animation <;> rfl

/-- C10: on a product on which load was never called (no stored merged
series) every latest-value accessor of the product, wind and met
classes returns None and raises nothing. -/
theorem accessors_none_before_load :
    product_latest_obs none = .ok none ∧ product_latest_obs_time none = .ok none ∧
    wind_latest_obs_time none = .ok none ∧ wind_latest_wind_speed none = .ok none ∧
    wind_latest_gust_speed none = .ok none ∧ wind_latest_wind_cardinal none = .ok none ∧
    wind_latest_gust_cardinal none = .ok none ∧ met_latest_obs_time none = .ok none ∧
    met_latest_air_temp none = .ok none ∧ met_latest_water_temp none = .ok none ∧
    met_latest_air_pressure none = .ok none ∧ met_latest_wind_speed none = .ok none ∧
    met_latest_wind_cardinal none = .ok none ∧ met_latest_gust_speed none = .ok none ∧
    met_latest_gust_cardinal none = .ok none :=
  ⟨rfl, rfl, rfl, rfl, rfl, rfl, rfl, rfl, rfl, rfl, rfl, rfl, rfl, rfl, rfl⟩

end DDP
